import Mathlib

/-!
Verification of the CertStudy server (server.js): a shallow embedding of the
request pipelines of `/api/generate-quiz` and `/api/explain`, together with
theorems checking the natural-language specification against the code.

JavaScript values are modelled by the inductive type `JSVal`; numbers are
modelled as integers (the pipelines only ever handle integral token counts,
question counts and HTTP statuses).  Machine-level niceties that no claim
touches (IEEE floats, `-0`, `NaN` propagation inside arithmetic, hexadecimal
`parseInt` inputs, prototype-chain lookups) are outside the model.
-/

/-- Model of a JavaScript value as it occurs in the server's request handling:
`undefined`, `null`, booleans, (integral) numbers, strings, arrays and plain
objects (association lists of fields). -/
inductive JSVal where
  | undefined
  | null
  | bool (b : Bool)
  | num (n : Int)
  | str (s : String)
  | arr (elems : List JSVal)
  | obj (fields : List (String × JSVal))

/-- JavaScript truthiness: `undefined`, `null`, `false`, `0` and `""` are
falsy; every other value (including any array or object) is truthy. -/
def truthy : JSVal → Bool
  | .undefined => false
  | .null => false
  | .bool b => b
  | .num n => n != 0
  | .str s => s != ""
  | .arr _ => true
  | .obj _ => true

/-- A value is nullish (for the `??` operator and optional chaining) exactly
when it is `undefined` or `null`. -/
def nullish : JSVal → Bool
  | .undefined => true
  | .null => true
  | _ => false

/-- Property access `v.k`: the first binding of field `k` on an object,
`undefined` otherwise (the model ignores prototype-chain and string/array
built-in properties, none of which the server reads). -/
def getField : JSVal → String → JSVal
  | .obj fields, k =>
    match fields.find? (fun p => p.1 == k) with
    | some p => p.2
    | none => .undefined
  | _, _ => .undefined

/-- Index access `v[i]` for the values the server indexes: array element, or
numeric-keyed object field, `undefined` otherwise. -/
def getIndex : JSVal → Nat → JSVal
  | .arr l, i =>
    match l.get? i with
    | some v => v
    | none => .undefined
  | .obj fields, i => getField (.obj fields) (toString i)
  | _, _ => .undefined

/-- The JavaScript `a || b` operator: `a` when truthy, else `b`. -/
def jsOr (a b : JSVal) : JSVal := if truthy a then a else b

/-- The JavaScript `a ?? b` operator: `a` when non-nullish, else `b`. -/
def jsCoalesce (a b : JSVal) : JSVal := if nullish a then b else a

mutual
/-- The JavaScript `String(v)` coercion, as used in the quiz validator's
`String(q.question)` and `q.options.map(String)`. -/
def jsToString : JSVal → String
  | .undefined => "undefined"
  | .null => "null"
  | .bool true => "true"
  | .bool false => "false"
  | .num n => toString n
  | .str s => s
  | .arr xs => String.intercalate "," (jsToStringElems xs)
  | .obj _ => "[object Object]"

/-- Coercion of array elements for `Array.prototype.toString` (a `join(",")`):
`null` and `undefined` elements become the empty string. -/
def jsToStringElems : List JSVal → List String
  | [] => []
  | .null :: xs => "" :: jsToStringElems xs
  | .undefined :: xs => "" :: jsToStringElems xs
  | x :: xs => jsToString x :: jsToStringElems xs
end

/-- The whitespace characters stripped by the model's trimming and parsing
helpers (space, tab, newline, carriage return). -/
def isWsChar (c : Char) : Bool :=
  c = ' ' || c = '\t' || c = '\n' || c = '\r'

/-- Drop leading whitespace from a character list. -/
def skipWs : List Char → List Char
  | [] => []
  | c :: cs => if isWsChar c then skipWs cs else c :: cs

/-- Model of `String.prototype.trim`: strip whitespace from both ends. -/
def jsTrim (s : String) : String :=
  String.mk (((s.data.dropWhile isWsChar).reverse.dropWhile isWsChar).reverse)

/-- Model of `String.prototype.slice(0, n)`: keep the first `n` characters. -/
def strSlice (s : String) (n : Nat) : String :=
  String.mk (s.data.take n)

/-- Split a character list into its maximal run of leading decimal digits and
the rest. -/
def takeDigits : List Char → List Char × List Char
  | [] => ([], [])
  | c :: cs =>
    if c.isDigit then
      let p := takeDigits cs
      (c :: p.1, p.2)
    else ([], c :: cs)

/-- Accumulate the value of a list of decimal digits. -/
def digitsToNatAux (acc : Nat) : List Char → Nat
  | [] => acc
  | c :: cs => digitsToNatAux (acc * 10 + (c.toNat - 48)) cs

/-- Model of the global `parseInt` on a string: skip leading whitespace, read
an optional sign and then a maximal run of decimal digits, ignoring any
trailing characters; `none` models `NaN` (no digits).  Hexadecimal prefixes
are not modelled. -/
def parseIntStr (s : String) : Option Int :=
  match skipWs s.data with
  | '-' :: rest =>
    match takeDigits rest with
    | ([], _) => none
    | (ds, _) => some (-(Int.ofNat (digitsToNatAux 0 ds)))
  | '+' :: rest =>
    match takeDigits rest with
    | ([], _) => none
    | (ds, _) => some (Int.ofNat (digitsToNatAux 0 ds))
  | cs =>
    match takeDigits cs with
    | ([], _) => none
    | (ds, _) => some (Int.ofNat (digitsToNatAux 0 ds))

/-- `parseInt(v)` on an arbitrary value: coerce to string, then parse. -/
def parseIntJS (v : JSVal) : Option Int :=
  parseIntStr (jsToString v)

/-- Full-string numeric conversion used by `ToNumber` on strings: optional
sign followed by digits only (after trimming); the empty string is `0`;
anything else is `NaN` (`none`).  Fractions and exponents are not modelled. -/
def toNumFromString (s : String) : Option Int :=
  match (jsTrim s).data with
  | [] => some 0
  | '-' :: rest =>
    if rest ≠ [] ∧ rest.all Char.isDigit then
      some (-(Int.ofNat (digitsToNatAux 0 rest)))
    else none
  | '+' :: rest =>
    if rest ≠ [] ∧ rest.all Char.isDigit then
      some (Int.ofNat (digitsToNatAux 0 rest))
    else none
  | cs =>
    if cs.all Char.isDigit then some (Int.ofNat (digitsToNatAux 0 cs))
    else none

/-- The JavaScript `ToNumber` coercion (with `none` standing for `NaN`). -/
def toNumberJS : JSVal → Option Int
  | .undefined => none
  | .null => some 0
  | .bool b => some (if b then 1 else 0)
  | .num n => some n
  | .str s => toNumFromString s
  | .arr l => toNumFromString (jsToString (.arr l))
  | .obj _ => none

/-- The comparison `v >= k` against a numeric literal, which coerces `v` with
`ToNumber` and is false on `NaN`. -/
def jsGENum (v : JSVal) (k : Int) : Bool :=
  match toNumberJS v with
  | some m => decide (k ≤ m)
  | none => false

/-- Strict equality `v === k` against a numeric literal: true only for the
equal number. -/
def jsEqNum (v : JSVal) (k : Int) : Bool :=
  match v with
  | .num m => m == k
  | _ => false

/-- Consume an expected literal character sequence. -/
def dropLit : List Char → List Char → Option (List Char)
  | [], cs => some cs
  | l :: ls, c :: cs => if c = l then dropLit ls cs else none
  | _ :: _, [] => none

/-- Value of a hexadecimal digit, for `\u` escapes. -/
def hexVal (c : Char) : Option Nat :=
  if c.isDigit then some (c.toNat - 48)
  else if 'a' ≤ c ∧ c ≤ 'f' then some (c.toNat - 87)
  else if 'A' ≤ c ∧ c ≤ 'F' then some (c.toNat - 55)
  else none

/-- Parse the body of a JSON string (the opening quote already consumed),
decoding the standard escapes, and return the decoded characters together
with the input following the closing quote.  The fuel argument only bounds
the recursion and is set large enough by the caller. -/
def parseJsonStringBody : Nat → List Char → Option (List Char × List Char)
  | 0, _ => none
  | _, [] => none
  | fuel + 1, c :: cs =>
    if c = '"' then some ([], cs)
    else if c = '\\' then
      match cs with
      | [] => none
      | e :: cs2 =>
        if e = 'u' then
          match cs2 with
          | h1 :: h2 :: h3 :: h4 :: cs3 =>
            match hexVal h1, hexVal h2, hexVal h3, hexVal h4 with
            | some a, some b, some c2, some d =>
              match parseJsonStringBody fuel cs3 with
              | some p => some (Char.ofNat (a * 4096 + b * 256 + c2 * 16 + d) :: p.1, p.2)
              | none => none
            | _, _, _, _ => none
          | _ => none
        else
          let ec : Char :=
            if e = 'n' then '\n'
            else if e = 't' then '\t'
            else if e = 'r' then '\r'
            else if e = 'b' then Char.ofNat 8
            else if e = 'f' then Char.ofNat 12
            else e
          match parseJsonStringBody fuel cs2 with
          | some p => some (ec :: p.1, p.2)
          | none => none
    else
      match parseJsonStringBody fuel cs with
      | some p => some (c :: p.1, p.2)
      | none => none

/-- Parse a JSON number (integral only: the model has no fractional numbers,
so fractions and exponents are rejected rather than read). -/
def parseJsonNumber : List Char → Option (Int × List Char)
  | '-' :: rest =>
    match takeDigits rest with
    | ([], _) => none
    | (ds, r) => some (-(Int.ofNat (digitsToNatAux 0 ds)), r)
  | cs =>
    match takeDigits cs with
    | ([], _) => none
    | (ds, r) => some (Int.ofNat (digitsToNatAux 0 ds), r)

mutual
/-- Fueled JSON value parser modelling `JSON.parse`: returns the parsed value
and the remaining input, or `none` on a syntax error (which `JSON.parse`
raises as an exception). -/
def parseJsonVal : Nat → List Char → Option (JSVal × List Char)
  | 0, _ => none
  | fuel + 1, cs =>
    match skipWs cs with
    | [] => none
    | c :: rest =>
      if c = 'n' then (dropLit ['u', 'l', 'l'] rest).map (fun r => (JSVal.null, r))
      else if c = 't' then (dropLit ['r', 'u', 'e'] rest).map (fun r => (JSVal.bool true, r))
      else if c = 'f' then (dropLit ['a', 'l', 's', 'e'] rest).map (fun r => (JSVal.bool false, r))
      else if c = '"' then
        (parseJsonStringBody (rest.length + 1) rest).map
          (fun p => (JSVal.str (String.mk p.1), p.2))
      else if c = Char.ofNat 91 then parseJsonArrBody fuel (skipWs rest)
      else if c = Char.ofNat 123 then parseJsonObjBody fuel (skipWs rest)
      else (parseJsonNumber (c :: rest)).map (fun p => (JSVal.num p.1, p.2))

/-- Parse the inside of a JSON array, the opening bracket already consumed. -/
def parseJsonArrBody : Nat → List Char → Option (JSVal × List Char)
  | 0, _ => none
  | fuel + 1, cs =>
    match cs with
    | [] => none
    | c :: rest =>
      if c = Char.ofNat 93 then some (JSVal.arr [], rest)
      else (parseJsonItems fuel cs).map (fun p => (JSVal.arr p.1, p.2))

/-- Parse one or more comma-separated array elements up to the closing
bracket. -/
def parseJsonItems : Nat → List Char → Option (List JSVal × List Char)
  | 0, _ => none
  | fuel + 1, cs =>
    match parseJsonVal fuel cs with
    | none => none
    | some (v, r) =>
      match skipWs r with
      | ',' :: r2 => (parseJsonItems fuel r2).map (fun p => (v :: p.1, p.2))
      | c :: r2 => if c = Char.ofNat 93 then some ([v], r2) else none
      | [] => none

/-- Parse the inside of a JSON object, the opening brace already consumed. -/
def parseJsonObjBody : Nat → List Char → Option (JSVal × List Char)
  | 0, _ => none
  | fuel + 1, cs =>
    match cs with
    | [] => none
    | c :: rest =>
      if c = Char.ofNat 125 then some (JSVal.obj [], rest)
      else (parseJsonMembers fuel cs).map (fun p => (JSVal.obj p.1, p.2))

/-- Parse one or more comma-separated `"key": value` members up to the
closing brace. -/
def parseJsonMembers : Nat → List Char → Option (List (String × JSVal) × List Char)
  | 0, _ => none
  | fuel + 1, cs =>
    match skipWs cs with
    | '"' :: rest =>
      match parseJsonStringBody (rest.length + 1) rest with
      | none => none
      | some (k, r) =>
        match skipWs r with
        | ':' :: r2 =>
          match parseJsonVal fuel r2 with
          | none => none
          | some (v, r3) =>
            match skipWs r3 with
            | ',' :: r4 => (parseJsonMembers fuel r4).map (fun p => ((String.mk k, v) :: p.1, p.2))
            | c :: r4 => if c = Char.ofNat 125 then some ([(String.mk k, v)], r4) else none
            | [] => none
        | _ => none
    | _ => none
end

/-- Model of `JSON.parse`: parse one value and require only whitespace after
it; `none` models the thrown `SyntaxError`. -/
def jsonParse (s : String) : Option JSVal :=
  match parseJsonVal (3 * s.data.length + 9) s.data with
  | some (v, r) => if (skipWs r).isEmpty then some v else none
  | none => none

/-- ASCII lower-casing of one character, for `toLowerCase`. -/
def jsLowerChar (c : Char) : Char :=
  if 'A' ≤ c ∧ c ≤ 'Z' then Char.ofNat (c.toNat + 32) else c

/-- Model of `String.prototype.toLowerCase` (ASCII range, which covers every
key the difficulty lookups compare against). -/
def jsToLower (s : String) : String := String.mk (s.data.map jsLowerChar)

/-- The fixed fallback topic used by both endpoints. -/
def TOPIC_FALLBACK : String := "AZ-900 (Microsoft Azure Fundamentals)"

/-- Model of a thrown `TypeError`, as an error object carrying its message;
the server only ever reads `status`, `code` and `message` off caught
errors. -/
def typeError (msg : String) : JSVal := .obj [("message", .str msg)]

/-- The `safeTopic` computation shared by both handlers, line 79 and line
248: `(topic || "AZ-900 (Microsoft Azure Fundamentals)").slice(0, 80)`.
Calling `.slice` on a truthy non-string throws, modelled with `Except`. -/
def safeTopic (topic : JSVal) : Except JSVal String :=
  match jsOr topic (.str TOPIC_FALLBACK) with
  | .str s => .ok (strSlice s 80)
  | _ => .error (typeError "topic.slice is not a function")

/-- The `numQuestions` computation, line 78:
`Math.min(Math.max(parseInt(count) || 5, 1), 15)`.  Note that `|| 5` fires
both when `parseInt` returns `NaN` and when it returns `0`. -/
def numQuestions (count : JSVal) : Int :=
  let parsed : Int :=
    match parseIntJS count with
    | some n => if n = 0 then 5 else n
    | none => 5
  min (max parsed 1) 15

/-- The `requestCount` computation, line 99:
`Math.min(numQuestions + 3, 20)`. -/
def requestCountOf (count : JSVal) : Int :=
  min (numQuestions count + 3) 20

/-- The quiz difficulty lookup, lines 84-90: lower-case key looked up in the
three-entry `difficultyMap`, defaulting to `"beginner"` (prototype-chain
keys are not modelled). -/
def difficultyLookup (k : String) : String :=
  if k = "beginner" ∨ k = "intermediate" ∨ k = "expert" then k else "beginner"

/-- The `safeDifficulty` computation, lines 89-90:
`difficultyMap[(difficulty || "").toLowerCase()] || "beginner"`.  Calling
`.toLowerCase` on a truthy non-string throws. -/
def safeDifficulty (difficulty : JSVal) : Except JSVal String :=
  match jsOr difficulty (.str "") with
  | .str s => .ok (difficultyLookup (jsToLower s))
  | _ => .error (typeError "difficulty.toLowerCase is not a function")

/-- The sanitized quiz-request fields produced by lines 78-90. -/
structure SanitizedQuiz where
  topic : String
  count : Int
  difficulty : String

/-- The quiz input sanitizer: `numQuestions`, `safeTopic` and
`safeDifficulty` over the raw request fields, with the first thrown
`TypeError` (topic before difficulty, following source order) escaping to
the handler's catch-all. -/
def sanitizeQuiz (topic count difficulty : JSVal) : Except JSVal SanitizedQuiz :=
  match safeTopic topic, safeDifficulty difficulty with
  | .ok t, .ok d => .ok ⟨t, numQuestions count, d⟩
  | .error e, _ => .error e
  | .ok _, .error e => .error e

/-- A validated, normalized question as built by the `cleaned` map, lines
182-190.  The `id` keeps the original JavaScript value when truthy (the
source does not coerce it), hence type `JSVal`. -/
structure GeneratedQuestion where
  id : JSVal
  question : String
  options : List String
  correctOption : String
  explanation : String

/-- The filter predicate of lines 178-181:
`q && q.question && Array.isArray(q.options) && q.options.length === 4`. -/
def isValidQuestion (q : JSVal) : Bool :=
  truthy q && truthy (getField q "question") &&
    (match getField q "options" with
     | .arr o => o.length == 4
     | _ => false)

/-- The normalization map of lines 182-190 (`idx` is the 0-based index in
the filtered list). -/
def normalizeQuestion (idx : Nat) (q : JSVal) : GeneratedQuestion where
  id := jsOr (getField q "id") (.str ("q" ++ toString (idx + 1)))
  question := jsToString (getField q "question")
  options :=
    match getField q "options" with
    | .arr o => o.map jsToString
    | _ => []
  correctOption :=
    match getField q "correctOption" with
    | .str s => if s == "A" || s == "B" || s == "C" || s == "D" then s else "A"
    | _ => "A"
  explanation :=
    if truthy (getField q "explanation") then jsToString (getField q "explanation") else ""

/-- The whole `cleaned` computation of lines 177-190: filter, then map with
the index within the surviving list. -/
def cleanedQuestions (questions : List JSVal) : List GeneratedQuestion :=
  (questions.filter isValidQuestion).mapIdx normalizeQuestion

/-- Spec-side survival test, following claim C1's words: the element has a
non-empty (i.e. truthy, which for text means non-empty) question field and
an options array of exactly 4 elements.  Unlike the source predicate it
does not separately test the element itself for truthiness. -/
def survivesPerClaim (q : JSVal) : Bool :=
  truthy (getField q "question") &&
    (match getField q "options" with
     | .arr o => o.length == 4
     | _ => false)

/-- Spec-side coercion of the options field to a list of texts. -/
def optionTexts : JSVal → List String
  | .arr o => o.map jsToString
  | _ => []

/-- Spec-side correct-option defaulting: keep the value when it is one of
the four letters, else "A". -/
def defaultedCorrect (v : JSVal) : String :=
  match v with
  | .str s => if s ∈ (["A", "B", "C", "D"] : List String) then s else "A"
  | _ => "A"

/-- Spec-side normalization of one survivor, `pos` being its 1-based
position within the surviving list. -/
def normalizePerClaim (pos : Nat) (q : JSVal) : GeneratedQuestion where
  id := if truthy (getField q "id") then getField q "id" else .str ("q" ++ toString pos)
  question := jsToString (getField q "question")
  options := optionTexts (getField q "options")
  correctOption := defaultedCorrect (getField q "correctOption")
  explanation :=
    if truthy (getField q "explanation") then jsToString (getField q "explanation") else ""

/-- Spec-side validator, following claim C1: keep exactly the surviving
elements in order, normalizing each at its 1-based surviving position. -/
def cleanedPerClaim (questions : List JSVal) : List GeneratedQuestion :=
  (questions.filter survivesPerClaim).mapIdx (fun i q => normalizePerClaim (i + 1) q)

/-- An error response body `{error, debug}`. -/
structure FailureBody where
  error : String
  debug : String

/-- The JSON-parse failure response, lines 169-173. -/
def parseFailBody : FailureBody :=
  ⟨"Failed to parse questions from AI (invalid JSON).",
   "The model did not return valid JSON. Check the prompt or inspect server logs to see the raw output."⟩

/-- The empty-validated-list failure response, lines 196-200. -/
def noValidBody : FailureBody :=
  ⟨"No valid questions generated from AI.",
   "The AI response did not contain properly formatted questions. Try again or adjust the prompt."⟩

/-- Outcome of the quiz handler's response-processing stage (after a
successful model call): an HTTP failure, a success carrying the cleaned
questions, or an exception escaping to the handler's catch-all. -/
inductive QuizStageResult where
  | failure (status : Nat) (body : FailureBody)
  | success (questions : List GeneratedQuestion)
  | thrown (err : JSVal)

/-- Lines 162-201: `JSON.parse` the raw text (parse failure returns the 500
invalid-JSON body), fall back to `[]` when the parsed value is falsy, filter
and normalize, and return the 500 no-valid-questions body when nothing
survives.  Calling `.filter` on a truthy non-array throws to the catch-all. -/
def processModelOutput (raw : String) : QuizStageResult :=
  match jsonParse raw with
  | none => .failure 500 parseFailBody
  | some v =>
    match jsOr v (.arr []) with
    | .arr l =>
      if (cleanedQuestions l).isEmpty then .failure 500 noValidBody
      else .success (cleanedQuestions l)
    | _ => .thrown (typeError "questions.filter is not a function")

/-- The optional-chained content extraction of line 160, before trimming:
`completion.choices[0]?.message?.content`.  Indexing `[0]` on a nullish
`choices` throws. -/
def contentVal (completion : JSVal) : Except JSVal JSVal :=
  match getField completion "choices" with
  | .undefined => .error (typeError "Cannot read properties of undefined")
  | .null => .error (typeError "Cannot read properties of null")
  | choices =>
    let c0 := getIndex choices 0
    if nullish c0 then .ok .undefined
    else
      let m := getField c0 "message"
      if nullish m then .ok .undefined
      else .ok (getField m "content")

/-- Line 160 in full:
`completion.choices[0]?.message?.content?.trim() || "[]"` — trim the content
when it is a string, substitute the literal `"[]"` when the chain is nullish
or the trimmed text is empty; `.trim` on a non-string content throws. -/
def extractRaw (completion : JSVal) : Except JSVal String :=
  match contentVal completion with
  | .error e => .error e
  | .ok ct =>
    if nullish ct then .ok "[]"
    else
      match ct with
      | .str s => .ok (if jsTrim s = "" then "[]" else jsTrim s)
      | _ => .error (typeError "content.trim is not a function")

/-- GPT-5 mini input price per million tokens, line 211 (`0.25`). -/
def INPUT_PRICE_PER_M : ℚ := 25 / 100

/-- GPT-5 mini output price per million tokens, line 212 (`2.0`). -/
def OUTPUT_PRICE_PER_M : ℚ := 2

/-- The cost computation of lines 214-217:
`(promptTokens * 0.25 + completionTokens * 2.0) / 1_000_000`. -/
def costUsd (promptTokens completionTokens : Int) : ℚ :=
  ((promptTokens : ℚ) * INPUT_PRICE_PER_M + (completionTokens : ℚ) * OUTPUT_PRICE_PER_M) / 1000000

/-- Model of `Number(x.toFixed(6))`: round to six decimal places. -/
def toFixed6 (x : ℚ) : ℚ := ((round (x * 1000000) : ℤ) : ℚ) / 1000000

/-- The reported `estimatedCostUsd` of line 227. -/
def estimatedCostUsd (promptTokens completionTokens : Int) : ℚ :=
  toFixed6 (costUsd promptTokens completionTokens)

/-- Line 204: `completion.usage || {}`. -/
def usageOf (completion : JSVal) : JSVal :=
  jsOr (getField completion "usage") (.obj [])

/-- Line 205: `usage.prompt_tokens ?? usage.input_tokens ?? 0`. -/
def promptTokensOf (usage : JSVal) : JSVal :=
  jsCoalesce (getField usage "prompt_tokens") (jsCoalesce (getField usage "input_tokens") (.num 0))

/-- Lines 206-207: `usage.completion_tokens ?? usage.output_tokens ?? 0`. -/
def completionTokensOf (usage : JSVal) : JSVal :=
  jsCoalesce (getField usage "completion_tokens") (jsCoalesce (getField usage "output_tokens") (.num 0))

/-- The fixed missing-credential diagnostic, line 35. -/
def MISSING_KEY_MSG : String :=
  "Missing OPENAI_API_KEY in .env. Set it and restart the server."

/-- The fixed unknown-error diagnostic, line 71. -/
def UNKNOWN_ERR_MSG : String :=
  "Unknown error occurred while calling OpenAI."

/-- The recognized network error codes, line 58. -/
def netCodes : List String := ["ENOTFOUND", "ECONNREFUSED", "ECONNRESET", "ETIMEDOUT"]

/-- Whether `err.code` passes the `includes` test of lines 57-61 (strict
string comparison, so only these four strings qualify; any hit is a truthy
value, so the surrounding `err.code` truthiness test is subsumed). -/
def isNetCode (v : JSVal) : Bool :=
  match v with
  | .str c => netCodes.contains c
  | _ => false

/-- The HTTP-status arm of the classifier, lines 39-53: a base sentence
naming the (stringified) status, then 401, 429, `>= 500` and a generic
remainder, in that order. -/
def statusMessage (status : JSVal) : String :=
  let base := "OpenAI API error (status " ++ jsToString status ++ ")."
  if jsEqNum status 401 then base ++ " Authentication failed. Check your API key."
  else if jsEqNum status 429 then base ++ " Rate limit or quota exceeded."
  else if jsGENum status 500 then base ++ " OpenAI server side error, try again."
  else base ++ " Check server logs for more details."

/-- The error classifier `buildErrorDebugInfo`, lines 32-72.  The ambient
read of `process.env.OPENAI_API_KEY` is passed in as the explicit flag
`apiKeyConfigured`.  A truthy `err.code` that is not one of the four network
codes falls through to the message check, exactly as the nested `if` of the
source does. -/
def buildErrorDebugInfo (apiKeyConfigured : Bool) (err : JSVal) : String :=
  if !apiKeyConfigured then MISSING_KEY_MSG
  else if truthy err && truthy (getField err "status") then
    statusMessage (getField err "status")
  else if truthy err && isNetCode (getField err "code") then
    "Network error (" ++ jsToString (getField err "code") ++
      ") while contacting OpenAI. Check your internet connection or firewall."
  else if truthy err && truthy (getField err "message") then
    "Unexpected error: " ++ jsToString (getField err "message")
  else UNKNOWN_ERR_MSG

/-- The system message of the explain pipeline, line 291. -/
def EXPLAIN_SYSTEM_MSG : String :=
  "You explain cloud/IT concepts clearly for exam students."

/-- The difficulty-derived tone directive of lines 252-258. -/
def explainLevel (difficulty : JSVal) : Except JSVal String :=
  match jsOr difficulty (.str "beginner") with
  | .str s =>
    let l := jsToLower s
    .ok (if l = "expert" then "advanced (assume some prior Azure knowledge, focus on depth)"
         else if l = "intermediate" then "intermediate (mix of plain language and technical detail)"
         else "beginner (plain language, minimal jargon)")
  | _ => .error (typeError "difficulty.toLowerCase is not a function")

/-- The explain prompt template of lines 260-282. -/
def buildExplainPrompt (topic text level : String) : String :=
  "\nYou are an certification tutor.\n\nTopic / exam: \"" ++ topic ++
  "\"\nStudent level: " ++ level ++
  "\n\nExplain the following term or phrase in a way that helps someone studying for this topic/certification/exam so they can understand the concept clearly.:\n\n\"" ++
  text ++
  "\"\n\nFormatting (Markdown):\n- Start with one line: **Summary:** short one-sentence definition.\n- Then one short paragraph (2–3 sentences) under **In simple terms:** explaining it like you would to a junior student.\n- Then at most 3 bullet points under **Why it matters for the exam:**.\n- Use **bold** for key service names or concepts.\n- You may use _italics_ for short clarifications.\n- No code blocks.\n- Keep the whole answer under about 150–180 words.\n\nFocus:\n- Keep it focused on what the term is, when/why it\x27s used, and how it relates to the topic on hand.\n- Avoid long lists or deep implementation detail.\n"

/-- What the explain handler does before any model invocation: reject blank
text with a 400, or build the prompt and reach the invocation, or throw. -/
inductive ExplainStep where
  | badRequest (status : Nat) (error : String)
  | invoke (systemMsg prompt : String)
  | thrown (err : JSVal)

/-- Lines 242-295 of `/api/explain` up to the model invocation: the blank
text guard `!text || !text.trim()` (where `.trim` on a truthy non-string
throws), then `safeTopic`, `text.slice(0, 500)`, the level directive and the
prompt. -/
def explainStep (topic text difficulty : JSVal) : ExplainStep :=
  if truthy text = false then .badRequest 400 "No text provided to explain."
  else
    match text with
    | .str s =>
      if jsTrim s = "" then .badRequest 400 "No text provided to explain."
      else
        match safeTopic topic with
        | .error e => .thrown e
        | .ok t =>
          match explainLevel difficulty with
          | .error e => .thrown e
          | .ok lvl => .invoke EXPLAIN_SYSTEM_MSG (buildExplainPrompt t (strSlice s 500) lvl)
    | _ => .thrown (typeError "text.trim is not a function")

/-- The externally visible outcome of the explain handler up to the model
invocation: a 400 client error, a 500 from the catch-all, or the invocation
itself. -/
inductive ExplainResult where
  | clientError (status : Nat) (error : String)
  | serverError (status : Nat) (error : String) (debug : String)
  | callModel (systemMsg prompt : String)

/-- The explain handler with its catch-all (lines 310-317): anything thrown
becomes HTTP 500 with the fixed "Internal server error." text and the
classified debug string. -/
def explainHandler (apiKeyConfigured : Bool) (topic text difficulty : JSVal) : ExplainResult :=
  match explainStep topic text difficulty with
  | .badRequest st e => .clientError st e
  | .invoke sys p => .callModel sys p
  | .thrown e => .serverError 500 "Internal server error." (buildErrorDebugInfo apiKeyConfigured e)

/-- Claim C6's own description of topic sanitization, written from its
words: the input trimmed, replaced by the fallback when empty or absent, and
truncated to 80 characters. -/
def claimSafeTopic (topic : JSVal) : String :=
  match topic with
  | .str s =>
    let t := jsTrim s
    strSlice (if t = "" then TOPIC_FALLBACK else t) 80
  | _ => strSlice TOPIC_FALLBACK 80

lemma isValid_eq_survives (q : JSVal) : isValidQuestion q = survivesPerClaim q := by
  cases q <;> simp [isValidQuestion, survivesPerClaim, getField, truthy]

lemma normalizeQuestion_eq_perClaim (i : Nat) (q : JSVal) :
    normalizeQuestion i q = normalizePerClaim (i + 1) q := by
  unfold normalizeQuestion normalizePerClaim jsOr optionTexts defaultedCorrect
  congr 1
  cases getField q "correctOption" <;>
    first
      | rfl
      | exact if_congr (by simp [List.mem_cons]; tauto) rfl rfl

/-- Claim C1: the validator's surviving list holds exactly the elements with
a truthy (for text: non-empty) question field and a 4-element options array,
in their original order, each normalized exactly as the claim describes
(fallback id `q{pos}` with `pos` the 1-based surviving position only when
the original id is absent/falsy, question and options coerced to text,
`correctOption` defaulted to "A" outside A-D, explanation defaulted to
empty).  `cleanedQuestions` is the source computation, `cleanedPerClaim` the
claim's own description. -/
theorem c1_quiz_validator_characterization (qs : List JSVal) :
    cleanedQuestions qs = cleanedPerClaim qs := by
  unfold cleanedQuestions cleanedPerClaim
  rw [List.filter_congr (fun q _ => isValid_eq_survives q)]
  have hf : normalizeQuestion = fun i q => normalizePerClaim (i + 1) q :=
    funext fun i => funext fun q => normalizeQuestion_eq_perClaim i q
  rw [hf]

lemma numQuestions_mem (count : JSVal) :
    1 ≤ numQuestions count ∧ numQuestions count ≤ 15 := by
  unfold numQuestions
  constructor
  · exact le_min (le_max_right _ 1) (by norm_num)
  · exact min_le_right _ 15

/-- Claim C2 is wrong about `count = 0`: `parseInt(count) || 5` treats the
parsed value `0` as falsy, so the default 5 (not the clamp to 1) applies,
giving effective count 5 and request count 8 where the claim asserts 1 and
4. -/
theorem c2_count_zero_counterexample :
    numQuestions (.num 0) = 5 ∧ requestCountOf (.num 0) = 8 ∧
      ¬(numQuestions (.num 0) = 1 ∧ requestCountOf (.num 0) = 4) := by
  refine ⟨rfl, rfl, ?_⟩
  rintro ⟨h, -⟩
  exact absurd ((rfl : numQuestions (.num 0) = 5) ▸ h) (by decide)

/-- Claim C2, amended: for every `count` input the effective question count
lies in [1, 15] and `requestCount = min(effective + 3, 20)`; `count = 999`
gives effective 15 and request count 18, while `count = 0` is swallowed by
the `|| 5` default (0 is falsy) and gives effective 5 and request count 8
rather than the claimed 1 and 4. -/
theorem c2_request_count_clamped_amended (count : JSVal) :
    (1 ≤ numQuestions count ∧ numQuestions count ≤ 15)
  ∧ requestCountOf count = min (numQuestions count + 3) 20
  ∧ (numQuestions (.num 999) = 15 ∧ requestCountOf (.num 999) = 18)
  ∧ (numQuestions (.num 0) = 5 ∧ requestCountOf (.num 0) = 8) :=
  ⟨numQuestions_mem count, rfl, ⟨rfl, rfl⟩, ⟨rfl, rfl⟩⟩

/-- Claim C5: the estimated cost is exactly
`(promptTokens * 0.25 + completionTokens * 2.0) / 1_000_000` rounded to six
decimal places (the computation is a total function, so it never fails); the
token readings fall back across the documented field aliases and default to
0 when absent; and 1000 prompt tokens with 500 completion tokens cost
0.001250. -/
theorem c5_cost_estimation :
    (∀ p c : Int, estimatedCostUsd p c =
        toFixed6 (((p : ℚ) * (25 / 100) + (c : ℚ) * 2) / 1000000))
  ∧ estimatedCostUsd 1000 500 = 1250 / 1000000
  ∧ promptTokensOf (.obj []) = .num 0
  ∧ completionTokensOf (.obj []) = .num 0
  ∧ promptTokensOf (.obj [("input_tokens", .num 42)]) = .num 42
  ∧ completionTokensOf (.obj [("output_tokens", .num 37)]) = .num 37
  ∧ promptTokensOf (.obj [("prompt_tokens", .num 7), ("input_tokens", .num 42)]) = .num 7
  ∧ completionTokensOf (.obj [("completion_tokens", .num 9), ("output_tokens", .num 37)]) =
      .num 9 := by
  refine ⟨fun p c => rfl, ?_, rfl, rfl, rfl, rfl, rfl, rfl⟩
  unfold estimatedCostUsd toFixed6 costUsd INPUT_PRICE_PER_M OUTPUT_PRICE_PER_M
  norm_num [round_eq]

/-- Claim C6 is wrong about trimming: the source never trims the topic, it
only substitutes the fallback for a falsy topic and truncates to 80
characters, so the input `" Azure "` sanitizes to `" Azure "` while the
claim's description (`claimSafeTopic`) yields `"Azure"`. -/
theorem c6_topic_trim_counterexample :
    safeTopic (.str " Azure ") = .ok " Azure "
  ∧ claimSafeTopic (.str " Azure ") = "Azure"
  ∧ (" Azure " : String) ≠ "Azure" :=
  ⟨rfl, rfl, by decide⟩

/-- Claim C6, amended: the sanitized topic is the input unchanged (no
trimming), replaced by the fixed fallback exactly when the raw topic is
absent or falsy (for text: empty), and truncated to 80 characters by plain
character truncation. -/
theorem c6_topic_sanitization_amended :
    (∀ s : String, safeTopic (.str s) = .ok (strSlice (if s = "" then TOPIC_FALLBACK else s) 80))
  ∧ safeTopic .undefined = .ok TOPIC_FALLBACK
  ∧ safeTopic .null = .ok TOPIC_FALLBACK
  ∧ strSlice TOPIC_FALLBACK 80 = TOPIC_FALLBACK := by
  refine ⟨?_, rfl, rfl, rfl⟩
  intro s
  by_cases h : s = ""
  · subst h; rfl
  · have ht : truthy (.str s) = true := by simp [truthy, bne_iff_ne, h]
    unfold safeTopic jsOr
    rw [ht]
    simp [h]

/-- Claim C10: an explain request whose `text` is truthy but not a string
(here the number 7) slips past the blank-text guard, the call to `.trim`
throws, and the catch-all answers HTTP 500 "Internal server error." (with
the classified debug text), not the 400 client error. -/
theorem c10_nonstring_text_internal_error :
    explainHandler true (.str "Azure") (.num 7) (.str "beginner") =
      .serverError 500 "Internal server error."
        "Unexpected error: text.trim is not a function" := rfl

lemma truthy_of_getField (err : JSVal) (k : String)
    (h : getField err k ≠ JSVal.undefined) : truthy err = true := by
  cases err <;> simp [getField, truthy] at h ⊢

/-- Claim C3: after a successful model call, unparseable raw text yields the
fixed 500 invalid-JSON response, and parseable text whose validated list is
empty yields the fixed 500 no-valid-questions response; the two generic
error texts differ, and both failure bodies are constants, so the raw model
output never appears in either response. -/
theorem c3_malformed_output_failure_paths (raw : String) :
    (jsonParse raw = none → processModelOutput raw = .failure 500 parseFailBody)
  ∧ (∀ v l, jsonParse raw = some v → jsOr v (.arr []) = .arr l →
      cleanedQuestions l = [] → processModelOutput raw = .failure 500 noValidBody)
  ∧ parseFailBody.error ≠ noValidBody.error := by
  refine ⟨?_, ?_, by decide⟩
  · intro h
    unfold processModelOutput
    rw [h]
  · intro v l hv hl hc
    unfold processModelOutput
    rw [hv]
    simp [hl, hc]

/-- Witness for claim C3: the two failure paths at the concrete raw texts
`"not json"` (a JSON syntax error) and `"[]"` (an empty array). -/
theorem c3_malformed_output_failure_paths_witness :
    processModelOutput "not json" = .failure 500 parseFailBody
  ∧ processModelOutput "[]" = .failure 500 noValidBody :=
  ⟨(c3_malformed_output_failure_paths "not json").1 rfl,
   (c3_malformed_output_failure_paths "[]").2.1 (.arr []) [] rfl rfl rfl⟩

/-- Claim C4: the classifier's fixed precedence — missing credential first
(ignoring the failure entirely), then an HTTP-like status (401, 429, >= 500,
generic-with-status), then a recognized network code, then a textual
message, then the fixed unknown-error text. -/
theorem c4_error_classifier_precedence (err : JSVal) :
    buildErrorDebugInfo false err = MISSING_KEY_MSG
  ∧ (∀ n : Int, getField err "status" = .num n → n ≠ 0 →
      buildErrorDebugInfo true err =
        (let base := "OpenAI API error (status " ++ toString n ++ ")."
         if n = 401 then base ++ " Authentication failed. Check your API key."
         else if n = 429 then base ++ " Rate limit or quota exceeded."
         else if 500 ≤ n then base ++ " OpenAI server side error, try again."
         else base ++ " Check server logs for more details."))
  ∧ (∀ c : String, truthy (getField err "status") = false → getField err "code" = .str c →
      c ∈ netCodes →
      buildErrorDebugInfo true err =
        "Network error (" ++ c ++ ") while contacting OpenAI. Check your internet connection or firewall.")
  ∧ (∀ m : String, truthy (getField err "status") = false →
      isNetCode (getField err "code") = false → getField err "message" = .str m → m ≠ "" →
      buildErrorDebugInfo true err = "Unexpected error: " ++ m)
  ∧ (truthy (getField err "status") = false → isNetCode (getField err "code") = false →
      truthy (getField err "message") = false →
      buildErrorDebugInfo true err = UNKNOWN_ERR_MSG) := by
  refine ⟨rfl, ?_, ?_, ?_, ?_⟩
  · intro n hs hn
    have herr : truthy err = true := truthy_of_getField err "status" (by rw [hs]; simp)
    have hsn : truthy (getField err "status") = true := by
      rw [hs]; simp [truthy, bne_iff_ne, hn]
    unfold buildErrorDebugInfo statusMessage
    rw [herr, hsn, hs]
    simp [jsEqNum, jsGENum, toNumberJS, jsToString]
  · intro c hs hc hmem
    have herr : truthy err = true := truthy_of_getField err "code" (by rw [hc]; simp)
    have hnet : isNetCode (getField err "code") = true := by
      rw [hc]
      simp [netCodes, List.mem_cons] at hmem
      rcases hmem with rfl | rfl | rfl | rfl <;> rfl
    unfold buildErrorDebugInfo
    rw [herr, hs, hnet, hc]
    simp [jsToString]
  · intro m hs hcode hm hne
    have herr : truthy err = true := truthy_of_getField err "message" (by rw [hm]; simp)
    have hmt : truthy (getField err "message") = true := by
      rw [hm]; simp [truthy, bne_iff_ne, hne]
    unfold buildErrorDebugInfo
    rw [herr, hs, hcode, hmt, hm]
    simp [jsToString]
  · intro hs hcode hmsg
    unfold buildErrorDebugInfo
    rw [hs, hcode, hmsg]
    simp

/-- Witness for claim C4: one concrete failure object per precedence arm. -/
theorem c4_error_classifier_precedence_witness :
    buildErrorDebugInfo false (.obj [("status", .num 401)]) = MISSING_KEY_MSG
  ∧ buildErrorDebugInfo true (.obj [("status", .num 429)]) =
      "OpenAI API error (status 429). Rate limit or quota exceeded."
  ∧ buildErrorDebugInfo true (.obj [("code", .str "ENOTFOUND")]) =
      "Network error (ENOTFOUND) while contacting OpenAI. Check your internet connection or firewall."
  ∧ buildErrorDebugInfo true (.obj [("message", .str "boom")]) = "Unexpected error: boom"
  ∧ buildErrorDebugInfo true .null = UNKNOWN_ERR_MSG := by
  refine ⟨(c4_error_classifier_precedence (.obj [("status", .num 401)])).1, ?_, ?_, ?_, ?_⟩
  · exact ((c4_error_classifier_precedence (.obj [("status", .num 429)])).2.1 429 rfl
      (by decide)).trans rfl
  · exact ((c4_error_classifier_precedence (.obj [("code", .str "ENOTFOUND")])).2.2.1
      "ENOTFOUND" rfl rfl (by decide)).trans rfl
  · exact ((c4_error_classifier_precedence (.obj [("message", .str "boom")])).2.2.2.1
      "boom" rfl rfl rfl (by decide)).trans rfl
  · exact (c4_error_classifier_precedence .null).2.2.2.2 rfl rfl rfl

/-- Claim C7: an explain request whose text is the empty string or trims to
empty is answered with HTTP 400 and the fixed error text; the outcome is a
`clientError`, which in this model is reached before (and instead of) any
model invocation. -/
theorem c7_blank_text_client_error (apiKeyConfigured : Bool) (topic difficulty : JSVal)
    (s : String) (h : jsTrim s = "") :
    explainHandler apiKeyConfigured topic (.str s) difficulty =
      .clientError 400 "No text provided to explain." := by
  by_cases he : s = ""
  · subst he; rfl
  · simp [explainHandler, explainStep, truthy, bne_iff_ne, he, h]

/-- Witness for claim C7: whitespace-only text. -/
theorem c7_blank_text_client_error_witness :
    explainHandler true (.str "AZ-900") (.str "   ") (.str "beginner") =
      .clientError 400 "No text provided to explain." :=
  c7_blank_text_client_error true (.str "AZ-900") (.str "beginner") "   " rfl

lemma strSlice_strSlice (s : String) (n : Nat) :
    strSlice (strSlice s n) n = strSlice s n := by
  unfold strSlice
  rw [show (String.mk (s.data.take n)).data = s.data.take n from rfl, List.take_take,
    min_self]

lemma strSlice_ne_empty (s : String) (h : s ≠ "") (n : Nat) (hn : n ≠ 0) :
    strSlice s n ≠ "" := by
  intro hc
  apply h
  cases s with
  | mk data =>
    cases data with
    | nil => rfl
    | cons c cs =>
      cases n with
      | zero => exact absurd rfl hn
      | succ m => exact absurd (congrArg String.data hc) (by simp [strSlice])

lemma safeTopic_restore (topic : JSVal) (t : String) (h : safeTopic topic = .ok t) :
    safeTopic (.str t) = .ok t := by
  unfold safeTopic at h ⊢
  cases htr : truthy topic
  · rw [jsOr, htr] at h
    simp at h
    have ht : t = TOPIC_FALLBACK := by rw [← h]; rfl
    subst ht
    rfl
  · cases topic <;> rw [jsOr, htr] at h <;> simp at h
    case str s =>
      subst h
      have hs : s ≠ "" := by
        intro he
        subst he
        exact absurd htr (by simp [truthy])
      have hne := strSlice_ne_empty s hs 80 (by decide)
      have htt : truthy (.str (strSlice s 80)) = true := by
        simp [truthy, bne_iff_ne, hne]
      rw [jsOr, htt]
      simp [strSlice_strSlice]

lemma safeDifficulty_restore (d : JSVal) (out : String)
    (h : safeDifficulty d = .ok out) : safeDifficulty (.str out) = .ok out := by
  have hmem : out = "beginner" ∨ out = "intermediate" ∨ out = "expert" := by
    unfold safeDifficulty at h
    cases htr : truthy d
    · rw [jsOr, htr] at h
      simp at h
      left
      rw [← h]
      rfl
    · cases d <;> rw [jsOr, htr] at h <;> simp at h
      case str s =>
        unfold difficultyLookup at h
        split at h
        · rename_i hcond
          subst h
          exact hcond
        · left
          exact h.symm
  rcases hmem with rfl | rfl | rfl <;> rfl

lemma parseIntJS_roundtrip (n : Int) (h1 : 1 ≤ n) (h2 : n ≤ 15) :
    parseIntJS (.num n) = some n := by
  interval_cases n <;> rfl

lemma numQuestions_fixed (n : Int) (h1 : 1 ≤ n) (h2 : n ≤ 15) :
    numQuestions (.num n) = n := by
  unfold numQuestions
  rw [parseIntJS_roundtrip n h1 h2]
  have hn : ¬ n = 0 := by omega
  simp only [hn, if_false]
  omega

/-- Claim C8: sanitizing an already-sanitized quiz request (its sanitized
topic, count and difficulty fed back in as raw fields) reproduces exactly
the same sanitized values. -/
theorem c8_sanitization_idempotent (topic count difficulty : JSVal) (s : SanitizedQuiz)
    (h : sanitizeQuiz topic count difficulty = .ok s) :
    sanitizeQuiz (.str s.topic) (.num s.count) (.str s.difficulty) = .ok s := by
  unfold sanitizeQuiz at h ⊢
  cases ht : safeTopic topic <;> rw [ht] at h
  · simp at h
  · cases hd : safeDifficulty difficulty <;> rw [hd] at h
    · simp at h
    · simp only [Except.ok.injEq] at h
      subst h
      rw [safeTopic_restore topic _ ht, safeDifficulty_restore difficulty _ hd]
      rw [numQuestions_fixed (numQuestions count) (numQuestions_mem count).1
        (numQuestions_mem count).2]

/-- Witness for claim C8: a concrete raw request (upper-case difficulty)
whose sanitized values re-sanitize to themselves. -/
theorem c8_sanitization_idempotent_witness :
    sanitizeQuiz (.str "Azure") (.num 3) (.str "expert") =
      .ok ⟨"Azure", 3, "expert"⟩ :=
  c8_sanitization_idempotent (.str "Azure") (.num 3) (.str "EXPERT")
    ⟨"Azure", 3, "expert"⟩ rfl

/-- Claim C9: when the model call succeeds but the chained content is
missing (nullish) or blank after trimming, line 160 substitutes the literal
`"[]"`, which parses as the empty array, so the request takes the 500
no-valid-questions path — whose error text differs from the invalid-JSON
path's. -/
theorem c9_blank_content_fallback (completion ct : JSVal)
    (h1 : contentVal completion = .ok ct)
    (h2 : nullish ct = true ∨ ∃ s, ct = .str s ∧ jsTrim s = "") :
    extractRaw completion = .ok "[]"
  ∧ jsonParse "[]" = some (.arr [])
  ∧ processModelOutput "[]" = .failure 500 noValidBody
  ∧ noValidBody.error ≠ parseFailBody.error := by
  refine ⟨?_, rfl, rfl, by decide⟩
  unfold extractRaw
  rw [h1]
  rcases h2 with h | ⟨s, rfl, hs⟩
  · simp [h]
  · simp [nullish, hs]

/-- Witness for claim C9: a completion whose `choices` array is empty, so
the optional chain is nullish. -/
theorem c9_blank_content_fallback_witness :
    extractRaw (JSVal.obj [("choices", JSVal.arr [])]) = .ok "[]"
  ∧ jsonParse "[]" = some (.arr [])
  ∧ processModelOutput "[]" = .failure 500 noValidBody
  ∧ noValidBody.error ≠ parseFailBody.error :=
  c9_blank_content_fallback (JSVal.obj [("choices", JSVal.arr [])]) .undefined rfl
    (Or.inl rfl)
